import Mathlib

/-!
Shallow embedding of the wooRank SEO-analyzer pipeline.

Source files embedded here:
- `src/src/server.js` (the services module): `fetchHTML`, `parseSEOData`,
  `calculateScore`.
- `src/unnamed/part_000` (the analyze route): request validation and the
  success/error response assembly of `router.post`.
- `src/unnamed/part_001` (the error handler): `handleError`.

Modelling conventions:
- JavaScript runtime values appearing in the request body are modelled by
  `JsValue`; JS truthiness by `truthy`.  JS numbers are modelled by `Int`
  plus a separate `nan` constructor, which is all the validator's
  truthiness test can observe.
- The WHATWG `new URL` parser is an external host facility; it is passed
  in as an explicit parameter (`parseUrl` for `new URL(s)`,
  `resolve` for `new URL(href, base)`), both returning `Option Url`
  (`none` = the constructor throws).
- `cheerio.load` is likewise external; an HTML document is embedded at the
  DOM level as `Doc`, holding exactly the element data the extractor
  queries.
- A thrown JS `Error` is modelled by `JsError` (message, optional `code`,
  optional `response.status`).  Fallible JS functions return `Except`.
- `String.prototype.trim` and `String.prototype.includes` are modelled by
  `jsTrim` and `jsIncludes` over the character lists of Lean strings.
-/

/-- A JavaScript runtime value, as far as the request validator can
distinguish values: `typeof`, truthiness.  Numbers are `Int` plus a
separate `nan`; all objects/arrays are collapsed into `object` (truthy,
non-string). -/
inductive JsValue where
  | undefined
  | nullv
  | boolean (b : Bool)
  | number (x : Int)
  | nan
  | str (s : String)
  | object
deriving DecidableEq, Repr

/-- JavaScript truthiness: `undefined`, `null`, `false`, `0`, `NaN` and
`""` are falsy, everything else truthy. -/
def truthy : JsValue → Bool
  | .undefined => false
  | .nullv => false
  | .boolean b => b
  | .number x => x != 0
  | .nan => false
  | .str s => s != ""
  | .object => true

/-- `typeof v === 'string'`. -/
def isStringVal : JsValue → Bool
  | .str _ => true
  | _ => false

/-- The string payload of a JS value (only ever read on the `str` case;
the source guards every use with a `typeof` check). -/
def strOf : JsValue → String
  | .str s => s
  | _ => ""

/-- Model of JavaScript `String.prototype.trim`: strip leading and
trailing whitespace characters. -/
def jsTrim (s : String) : String :=
  String.mk (((s.data.dropWhile Char.isWhitespace).reverse.dropWhile
    Char.isWhitespace).reverse)

/-- Model of JavaScript `String.prototype.includes`: substring search. -/
def jsIncludes (s sub : String) : Bool :=
  (List.range (s.data.length + 1)).any
    (fun i => (s.data.drop i).take sub.data.length == sub.data)

/-- The result of the WHATWG URL parser, restricted to the two fields the
source reads: `urlObj.protocol` (with trailing colon, e.g. `"https:"`)
and `urlObj.hostname`. -/
structure Url where
  protocol : String
  hostname : String
deriving DecidableEq, Repr

/-- A thrown JavaScript `Error` as observed by `handleError`:
`error.message`, `error.code` (set on axios network errors, absent on
plain `new Error(...)`), and `error.response.status` (set on axios HTTP
errors, absent otherwise; `none` models a missing/falsy
`error.response`). -/
structure JsError where
  message : String
  code : Option String
  responseStatus : Option Nat
deriving DecidableEq, Repr

/-- A plain `new Error(msg)`: no `code`, no `response`. -/
def plainErr (msg : String) : JsError :=
  { message := msg, code := none, responseStatus := none }

/-- Outcome of the analyze route's request validation
(`src/unnamed/part_000` lines 6-41): either an early
`res.status(400).json({error, message})` or the validated URL string. -/
inductive ValidationResult where
  | error (status : Nat) (label : String) (msg : String)
  | ok (url : String)
deriving DecidableEq, Repr

/-- Request validation from `router.post` (`src/unnamed/part_000`,
lines 6-41): `if (!url)` → missing field; `typeof url !== 'string'` →
invalid type; `new URL(url)` throwing → invalid format; protocol other
than http/https → invalid protocol; otherwise the URL string is accepted.
The non-string match arm duplicating the invalid-type error is
unreachable (the `isStringVal` test has already passed) and exists only
to make the Lean match total. -/
def validateUrl (parseUrl : String → Option Url) (v : JsValue) :
    ValidationResult :=
  if truthy v = false then
    .error 400 "Missing required field" "URL is required in request body"
  else if isStringVal v = false then
    .error 400 "Invalid input type" "URL must be a string"
  else
    match v with
    | .str s =>
      match parseUrl s with
      | some u =>
        if u.protocol != "http:" && u.protocol != "https:" then
          .error 400 "Invalid URL protocol"
            "URL must use http or https protocol"
        else
          .ok s
      | none =>
        .error 400 "Invalid URL format" "URL must be a valid URL"
    | _ => .error 400 "Invalid input type" "URL must be a string"

/-- `SeoSignals`: the record returned by `parseSEOData`
(`src/src/server.js` lines 188-196). -/
structure SeoSignals where
  title : Option String
  metaDescription : Option String
  h1Count : Nat
  totalImages : Nat
  imagesMissingAlt : Nat
  totalInternalLinks : Nat
  usesHTTPS : Bool
deriving DecidableEq, Repr

/-- `ScoreResult`: the record returned by `calculateScore`
(`src/src/server.js` lines 263-267). -/
structure ScoreResult where
  score : Nat
  issues : List String
  passedChecks : List String
deriving DecidableEq, Repr

/-- JS truthiness of a nullable string field (`null`/`undefined` and `""`
are falsy). -/
def jsTruthyStr : Option String → Bool
  | none => false
  | some s => s != ""

/-- `calculateScore` (`src/src/server.js` lines 204-268).  The five
checks run in source order; each passed check adds 20 points and pushes
its message onto `passedChecks`, each failed check pushes its message
onto `issues`; finally `score = Math.min(score, 100)`.  The imperative
accumulation is rendered as a sum of guarded terms and a concatenation of
guarded singleton lists, preserving the push order. -/
def calculateScore (d : SeoSignals) : ScoreResult :=
  let score :=
    (if jsTruthyStr d.title then 20 else 0) +
    (if jsTruthyStr d.metaDescription then 20 else 0) +
    (if d.h1Count ≥ 1 then 20 else 0) +
    (if d.totalImages = 0 ∨ d.imagesMissingAlt = 0 then 20 else 0) +
    (if d.usesHTTPS then 20 else 0)
  let passedChecks :=
    (if jsTruthyStr d.title then ["Page has a title tag"] else []) ++
    (if jsTruthyStr d.metaDescription then ["Page has a meta description"]
      else []) ++
    (if d.h1Count ≥ 1 then ["Page has at least one H1 tag"] else []) ++
    (if d.totalImages = 0 ∨ d.imagesMissingAlt = 0 then
      ["All images have alt text"] else []) ++
    (if d.usesHTTPS then ["Page uses HTTPS"] else [])
  let issues :=
    (if jsTruthyStr d.title then [] else ["Missing page title tag"]) ++
    (if jsTruthyStr d.metaDescription then []
      else ["Missing meta description"]) ++
    (if d.h1Count ≥ 1 then [] else ["No H1 tags found on the page"]) ++
    (if d.totalImages = 0 ∨ d.imagesMissingAlt = 0 then []
      else [toString d.imagesMissingAlt ++ " image(s) missing alt text"]) ++
    (if d.usesHTTPS then [] else ["Page does not use HTTPS"])
  { score := min score 100, issues := issues, passedChecks := passedChecks }

/-- A `<meta>` element: its `name` and `content` attributes (absent
attributes are `none`). -/
structure MetaTag where
  name : Option String
  content : Option String
deriving DecidableEq, Repr

/-- An `<img>` element: its `alt` attribute. -/
structure ImgTag where
  alt : Option String
deriving DecidableEq, Repr

/-- An `<a>` element: its `href` attribute. -/
structure Anchor where
  href : Option String
deriving DecidableEq, Repr

/-- A parsed HTML document at the level of detail `parseSEOData` queries
through cheerio: the text of each `<title>` element in document order,
all `<meta>` elements, the number of `<h1>` elements, all `<img>`
elements, and all `<a>` elements, each in document order. -/
structure Doc where
  titleTexts : List String
  metas : List MetaTag
  h1Count : Nat
  imgs : List ImgTag
  anchors : List Anchor
deriving DecidableEq, Repr

/-- Cheerio `$('meta[name="n"]').attr('content')`: the `content`
attribute of the first `<meta>` whose `name` attribute equals `n`
(attribute-value matching is case-sensitive), or `none` when there is no
such element or it has no `content` attribute. -/
def firstMetaContent (metas : List MetaTag) (n : String) : Option String :=
  ((metas.filter (fun m => m.name = some n)).head?).bind (fun m => m.content)

/-- JavaScript `a || b` for nullable strings: `a` unless it is
null/undefined or `""`, else `b`. -/
def jsStrOr (a b : Option String) : Option String :=
  match a with
  | some s => if s = "" then b else some s
  | none => b

/-- An `<img>` counted by the `imagesMissingAlt` loop
(`src/src/server.js` lines 155-160): `alt` absent, or trimming to the
empty string. -/
def isMissingAlt (img : ImgTag) : Bool :=
  match img.alt with
  | none => true
  | some a => jsTrim a = ""

/-- `href.startsWith('/') || href.startsWith('./') ||
href.startsWith('../')` (`src/src/server.js` line 170). -/
def isRelativeHref (h : String) : Bool :=
  h.startsWith "/" || h.startsWith "./" || h.startsWith "../"

/-- Whether one `<a>` element is counted by the `totalInternalLinks` loop
(`src/src/server.js` lines 163-183): skip a missing or empty (falsy)
`href`; count relative hrefs outright; otherwise resolve against the page
URL (`resolve h url` models `new URL(href, url)`) and count on an exact
hostname match; a failed resolution (`none` = the constructor throws)
is silently skipped. -/
def countsAsInternal (resolve : String → Url → Option Url) (url : Url)
    (baseDomain : String) (a : Anchor) : Bool :=
  match a.href with
  | none => false
  | some h =>
    if h = "" then false
    else if isRelativeHref h then true
    else
      match resolve h url with
      | some linkUrl => linkUrl.hostname = baseDomain
      | none => false

/-- `parseSEOData` (`src/src/server.js` lines 134-197) over the parsed
document `d` and the parsed page URL `url` (`new URL(url)` in the source;
the route has already validated that the URL parses).  `title` is
`$('title').first().text().trim() || null` — with no `<title>` the text
is `""`; `metaDescription` chains the two case-sensitive selectors with
JS `||`. -/
def parseSEOData (resolve : String → Url → Option Url) (d : Doc)
    (url : Url) : SeoSignals :=
  let baseDomain := url.hostname
  let titleText := jsTrim ((d.titleTexts.head?).getD "")
  { title := if titleText = "" then none else some titleText
    metaDescription :=
      jsStrOr (firstMetaContent d.metas "description")
        (jsStrOr (firstMetaContent d.metas "Description") none)
    h1Count := d.h1Count
    totalImages := d.imgs.length
    imagesMissingAlt := (d.imgs.filter isMissingAlt).length
    totalInternalLinks :=
      (d.anchors.filter (countsAsInternal resolve url baseDomain)).length
    usesHTTPS := url.protocol = "https:" }

/-- The outcome of the awaited `axios.get` call inside `fetchHTML`:
either a resolved 2xx response (`validateStatus` accepts only 2xx) with
its `content-type` header and `data`, or a rejected promise carrying an
axios error — `httpError status` for a non-2xx response
(`error.response.status` set) and `netError code msg` for a transport
failure (`error.code` set). -/
inductive AxiosResult where
  | response (status : Nat) (contentType : Option String) (data : JsValue)
  | httpError (status : Nat)
  | netError (code : String) (msg : String)
deriving DecidableEq, Repr

/-- The try-block of `fetchHTML` (`src/src/server.js` lines 47-79): on a
resolved response, reject non-HTML/plain content types, empty (or
non-string, or whitespace-only) bodies and bodies above 10MB, throwing
plain `Error`s; a rejected axios promise is re-raised as the
corresponding `JsError`. -/
def fetchTry (r : AxiosResult) : Except JsError String :=
  match r with
  | .httpError status =>
    .error { message := "Request failed with status code " ++ toString status
             code := none, responseStatus := some status }
  | .netError code msg =>
    .error { message := msg, code := some code, responseStatus := none }
  | .response _ ct data =>
    let contentType := ct.getD ""
    if !(jsIncludes contentType "text/html" ||
         jsIncludes contentType "text/plain") then
      .error (plainErr "URL does not return HTML content")
    else if truthy data = false || isStringVal data = false ||
        jsTrim (strOf data) = "" then
      .error (plainErr "Empty HTML: Page returned no content")
    else if (strOf data).length > 10 * 1024 * 1024 then
      .error (plainErr "Page too large: Content exceeds 10MB limit")
    else
      .ok (strOf data)

/-- The catch-block of `fetchHTML` (`src/src/server.js` lines 80-125):
every caught error — including the plain `Error`s thrown inside the try
block — is mapped to a *new* plain `Error`, so the rethrown error carries
neither `code` nor `response`.  Order follows the source: the four
`error.code` checks, then `error.response`, then the SSL codes, then the
`Failed to fetch URL:` wrap of any error with a message, then the unknown
fallback. -/
def fetchCatch (e : JsError) : JsError :=
  if e.code = some "ECONNABORTED" then
    plainErr "Request timeout: URL did not respond in time"
  else if e.code = some "ENOTFOUND" || e.code = some "EAI_AGAIN" then
    plainErr "DNS lookup failed: Unable to resolve domain name"
  else if e.code = some "ECONNREFUSED" then
    plainErr "Connection refused: Server is not accepting connections"
  else if e.code = some "ETIMEDOUT" then
    plainErr "Connection timeout: Unable to establish connection"
  else
    match e.responseStatus with
    | some status =>
      if 400 ≤ status ∧ status < 500 then
        plainErr ("Client error: Server returned " ++ toString status ++
          " status code")
      else if 500 ≤ status then
        plainErr ("Server error: Server returned " ++ toString status ++
          " status code")
      else
        plainErr ("HTTP error: Server returned " ++ toString status ++
          " status code")
    | none =>
      if e.code = some "UNABLE_TO_VERIFY_LEAF_SIGNATURE" ||
          e.code = some "CERT_HAS_EXPIRED" ||
          e.code = some "SELF_SIGNED_CERT_IN_CHAIN" then
        plainErr "SSL certificate error: Invalid or expired certificate"
      else if e.message != "" then
        plainErr ("Failed to fetch URL: " ++ e.message)
      else
        plainErr "Unknown error occurred while fetching URL"

/-- `fetchHTML` (`src/src/server.js` lines 46-126): the try block's
result, with every thrown error passed through the catch block. -/
def fetchHTML (r : AxiosResult) : Except JsError String :=
  match fetchTry r with
  | .ok h => .ok h
  | .error e => .error (fetchCatch e)

/-- The `{status, error, message}` object returned by `handleError`. -/
structure ErrResponse where
  status : Nat
  error : String
  message : String
deriving DecidableEq, Repr

/-- `handleError` (`src/unnamed/part_001` lines 6-108).  The branches are
taken in source order.  A caught error that matches none of the first
eight branches reaches the malformed block at line 95, which evaluates
`err.response` with `err` an undefined identifier; that evaluation throws
a `ReferenceError`, modelled here as `Except.error`.  In particular the
trailing 500 "Internal Server Error" default (lines 102-107) is
unreachable. -/
def handleError (e : JsError) : Except String ErrResponse :=
  let message := if e.message = "" then "Unknown error occurred"
    else e.message
  if jsIncludes message "Invalid URL" || jsIncludes message "URL must be" ||
      jsIncludes message "Missing required field" ||
      jsIncludes message "Invalid input type" then
    .ok { status := 400, error := "Invalid Request", message := message }
  else if jsIncludes message "timeout" ||
      jsIncludes message "did not respond in time" ||
      e.code = some "ECONNABORTED" || e.code = some "ETIMEDOUT" then
    .ok { status := 408, error := "Request Timeout"
          message := "The request timed out while fetching the URL" }
  else if jsIncludes message "Connection refused" ||
      jsIncludes message "blocked" || e.code = some "ECONNREFUSED" ||
      e.responseStatus = some 403 then
    .ok { status := 403, error := "Access Forbidden"
          message := "The website is blocking access or refusing connections" }
  else if jsIncludes message "Empty HTML" ||
      jsIncludes message "No content" then
    .ok { status := 422, error := "Unprocessable Content"
          message := "The page returned empty or no HTML content" }
  else if jsIncludes message "too large" ||
      jsIncludes message "exceeds size limit" then
    .ok { status := 413, error := "Payload Too Large"
          message := "The page content exceeds the maximum allowed size" }
  else if jsIncludes message "DNS lookup failed" ||
      jsIncludes message "Unable to resolve" ||
      e.code = some "ENOTFOUND" || e.code = some "EAI_AGAIN" then
    .ok { status := 502, error := "Bad Gateway"
          message := "Unable to resolve the domain name" }
  else
    match e.responseStatus with
    | some status =>
      if 500 ≤ status then
        .ok { status := 502, error := "Bad Gateway"
              message := "Target server returned error: " ++ toString status }
      else if 400 ≤ status ∧ status < 500 then
        .ok { status := 400, error := "Bad Request"
              message := "Target server returned error: " ++ toString status }
      else
        .error "ReferenceError: err is not defined"
    | none =>
      .error "ReferenceError: err is not defined"

/-- The success body of the analyze route (`src/unnamed/part_000`
lines 54-64). -/
structure AnalysisResponse where
  url : String
  seoScore : Nat
  checks : List String
  issues : List String
  passedChecks : List String
deriving DecidableEq, Repr

/-- `res.json({url, seoScore, checks, issues, passedChecks})` with
`checks = [...passedChecks, ...issues]`. -/
def buildResponse (url : String) (sr : ScoreResult) : AnalysisResponse :=
  { url := url
    seoScore := sr.score
    checks := sr.passedChecks ++ sr.issues
    issues := sr.issues
    passedChecks := sr.passedChecks }

/-- What one request to `POST /api/analyze` produces: a 200 success body,
an error response `res.status(s).json({error, message})`, or an uncaught
exception (the handler crashes without responding). -/
inductive RouteResult where
  | ok (resp : AnalysisResponse)
  | err (status : Nat) (label : String) (msg : String)
  | crash (msg : String)
deriving DecidableEq, Repr

/-- The analyze route `router.post` (`src/unnamed/part_000` lines 6-73):
validate the request body's `url`; fetch (the network outcome `ax` is the
route's environment); on fetch failure run `handleError` and send its
status/error/message (or crash on the `ReferenceError` inside
`handleError`); on success parse the page (`load` models `cheerio.load`,
`parseUrl` the `new URL` call re-done inside `parseSEOData`), score it,
and send the assembled response.  The `parseUrl` miss in the success
branch is unreachable: validation already parsed the same string with the
same parser. -/
def analyzeRoute (parseUrl : String → Option Url)
    (load : String → Doc) (resolve : String → Url → Option Url)
    (v : JsValue) (ax : AxiosResult) : RouteResult :=
  match validateUrl parseUrl v with
  | .error s l m => .err s l m
  | .ok urlStr =>
    match fetchHTML ax with
    | .error e =>
      match handleError e with
      | .ok r => .err r.status r.error r.message
      | .error m => .crash m
    | .ok html =>
      match parseUrl urlStr with
      | some urlObj =>
        .ok (buildResponse urlStr
          (calculateScore (parseSEOData resolve (load html) urlObj)))
      | none => .crash "unreachable: validated URL failed to reparse"

/-- The interpolated image issue string ends with the character `t`. -/
theorem imageIssue_getLast (n : Nat) :
    ((toString n ++ " image(s) missing alt text").data).getLast? = some 't' := by
  rw [String.data_append, List.getLast?_append_of_ne_nil _ (by decide)]
  decide

/-- The interpolated image issue string differs from any string whose last
character is not `t`. -/
theorem imageIssue_ne_of_getLast (n : Nat) (t : String)
    (h : t.data.getLast? ≠ some 't') :
    toString n ++ " image(s) missing alt text" ≠ t := by
  intro he
  exact h (he ▸ imageIssue_getLast n)

theorem imageIssue_ne_title (n : Nat) :
    toString n ++ " image(s) missing alt text" ≠ "Missing page title tag" :=
  imageIssue_ne_of_getLast n _ (by decide)

theorem imageIssue_ne_meta (n : Nat) :
    toString n ++ " image(s) missing alt text" ≠ "Missing meta description" :=
  imageIssue_ne_of_getLast n _ (by decide)

theorem imageIssue_ne_h1 (n : Nat) :
    toString n ++ " image(s) missing alt text" ≠
      "No H1 tags found on the page" :=
  imageIssue_ne_of_getLast n _ (by decide)

theorem imageIssue_ne_https (n : Nat) :
    toString n ++ " image(s) missing alt text" ≠ "Page does not use HTTPS" :=
  imageIssue_ne_of_getLast n _ (by decide)

/-- C4: for every `SeoSignals` record the score equals 20 points per
passed check clamped to 100; hence it lies in `[0, 100]` (scores are
naturals, so nonnegative) and is a multiple of 20. -/
theorem c4_score_formula (d : SeoSignals) :
    (calculateScore d).score =
      min (20 * (calculateScore d).passedChecks.length) 100 ∧
    (calculateScore d).score ≤ 100 ∧ 20 ∣ (calculateScore d).score := by
  by_cases h1 : jsTruthyStr d.title = true <;>
    by_cases h2 : jsTruthyStr d.metaDescription = true <;>
    by_cases h3 : d.h1Count ≥ 1 <;>
    by_cases h4 : d.totalImages = 0 ∨ d.imagesMissingAlt = 0 <;>
    by_cases h5 : d.usesHTTPS = true <;>
    simp [calculateScore, h1, h2, h3, h4, h5] <;> decide

/-- C6: every run of the scorer distributes exactly one message per check
over the two lists: `passedChecks.length + issues.length = 5`. -/
theorem c6_five_checks_partition (d : SeoSignals) :
    (calculateScore d).passedChecks.length +
      (calculateScore d).issues.length = 5 := by
  by_cases h1 : jsTruthyStr d.title = true <;>
    by_cases h2 : jsTruthyStr d.metaDescription = true <;>
    by_cases h3 : d.h1Count ≥ 1 <;>
    by_cases h4 : d.totalImages = 0 ∨ d.imagesMissingAlt = 0 <;>
    by_cases h5 : d.usesHTTPS = true <;>
    simp [calculateScore, h1, h2, h3, h4, h5]

/-- C5: the image-alt check passes exactly when `totalImages = 0` or
`imagesMissingAlt = 0`, putting "All images have alt text" into
`passedChecks` on pass and the interpolated
"{imagesMissingAlt} image(s) missing alt text" into `issues` on fail; in
particular one missing alt among two images yields exactly
"1 image(s) missing alt text". -/
theorem c5_image_alt_check (d : SeoSignals) :
    ("All images have alt text" ∈ (calculateScore d).passedChecks ↔
      (d.totalImages = 0 ∨ d.imagesMissingAlt = 0)) ∧
    ((toString d.imagesMissingAlt ++ " image(s) missing alt text") ∈
        (calculateScore d).issues ↔
      ¬(d.totalImages = 0 ∨ d.imagesMissingAlt = 0)) ∧
    "1 image(s) missing alt text" ∈
      (calculateScore (SeoSignals.mk none none 0 2 1 0 false)).issues := by
  refine ⟨?_, ?_, by decide⟩ <;>
  · by_cases h1 : jsTruthyStr d.title = true <;>
      by_cases h2 : jsTruthyStr d.metaDescription = true <;>
      by_cases h3 : d.h1Count ≥ 1 <;>
      by_cases h4 : d.totalImages = 0 ∨ d.imagesMissingAlt = 0 <;>
      by_cases h5 : d.usesHTTPS = true <;>
      simp [calculateScore, h1, h2, h3, h4, h5, imageIssue_ne_title,
        imageIssue_ne_meta, imageIssue_ne_h1, imageIssue_ne_https]

/-- C9: extraction and scoring are deterministic — two evaluations on
identical parsed documents and identical source URLs (with the same URL
resolver) yield identical `SeoSignals` and identical `ScoreResult`
records. -/
theorem c9_pipeline_deterministic (resolve : String → Url → Option Url)
    (d1 d2 : Doc) (u1 u2 : Url) (hd : d1 = d2) (hu : u1 = u2) :
    parseSEOData resolve d1 u1 = parseSEOData resolve d2 u2 ∧
    calculateScore (parseSEOData resolve d1 u1) =
      calculateScore (parseSEOData resolve d2 u2) := by
  subst hd
  subst hu
  exact ⟨rfl, rfl⟩

theorem c9_pipeline_deterministic_witness :
    parseSEOData (fun _ _ => none) (Doc.mk [] [] 0 [] [])
        (Url.mk "https:" "example.com") =
      parseSEOData (fun _ _ => none) (Doc.mk [] [] 0 [] [])
        (Url.mk "https:" "example.com") ∧
    calculateScore (parseSEOData (fun _ _ => none) (Doc.mk [] [] 0 [] [])
        (Url.mk "https:" "example.com")) =
      calculateScore (parseSEOData (fun _ _ => none) (Doc.mk [] [] 0 [] [])
        (Url.mk "https:" "example.com")) :=
  c9_pipeline_deterministic (fun _ _ => none) _ _ _ _ rfl rfl

/-- C10: a falsy `url` value — even one that is present and not a string,
such as `0`, `false` or `NaN` — takes the `if (!url)` branch and gets the
"Missing required field" response, and the "Invalid input type" branch is
reached only for truthy non-string values. -/
theorem c10_falsy_url_missing_field (parseUrl : String → Option Url)
    (v : JsValue) :
    (truthy v = false →
      validateUrl parseUrl v =
        .error 400 "Missing required field" "URL is required in request body") ∧
    (∀ st msg, validateUrl parseUrl v = .error st "Invalid input type" msg →
      truthy v = true ∧ isStringVal v = false) := by
  constructor
  · intro h
    simp [validateUrl, h]
  · intro st msg h
    by_cases ht : truthy v = false
    · simp [validateUrl, ht] at h
    · simp only [Bool.not_eq_false] at ht
      refine ⟨ht, ?_⟩
      cases v with
      | str s =>
        exfalso
        simp [validateUrl, ht, isStringVal] at h
        split at h
        · split at h
          · injection h with h1 h2 h3
            exact absurd h2 (by decide)
          · cases h
        · injection h with h1 h2 h3
          exact absurd h2 (by decide)
      | undefined => rfl
      | nullv => rfl
      | boolean b => rfl
      | number x => rfl
      | nan => rfl
      | object => rfl

theorem c10_falsy_url_missing_field_witness :
    validateUrl (fun _ => none) (JsValue.number 0) =
      .error 400 "Missing required field" "URL is required in request body" ∧
    validateUrl (fun _ => none) JsValue.nan =
      .error 400 "Missing required field" "URL is required in request body" ∧
    validateUrl (fun _ => none) (JsValue.boolean false) =
      .error 400 "Missing required field" "URL is required in request body" :=
  ⟨(c10_falsy_url_missing_field (fun _ => none) (JsValue.number 0)).1 rfl,
   (c10_falsy_url_missing_field (fun _ => none) JsValue.nan).1 rfl,
   (c10_falsy_url_missing_field (fun _ => none) (JsValue.boolean false)).1 rfl⟩

/-- C2, counterexample: a request body with `url` absent is answered with
status 400 but with error label "Missing required field", not
"Invalid Request" as claimed — the validator responds directly and never
goes through `handleError`. -/
theorem c2_invalid_request_counterexample :
    analyzeRoute (fun _ => none) (fun _ => Doc.mk [] [] 0 [] [])
        (fun _ _ => none) JsValue.undefined
        (AxiosResult.netError "ENOTFOUND" "getaddrinfo ENOTFOUND nohost") =
      RouteResult.err 400 "Missing required field"
        "URL is required in request body" ∧
    "Missing required field" ≠ "Invalid Request" := by
  exact ⟨rfl, by decide⟩

/-- C2, amended: for every request body whose `url` is absent, null,
empty, or otherwise falsy, and for every body whose `url` is present but
not a string, the endpoint responds with HTTP status 400 — but the
`error` label is "Missing required field" (falsy values, including falsy
non-strings) or "Invalid input type" (truthy non-strings), not
"Invalid Request". -/
theorem c2_invalid_request_amended (parseUrl : String → Option Url)
    (load : String → Doc) (resolve : String → Url → Option Url)
    (v : JsValue) (ax : AxiosResult)
    (h : truthy v = false ∨ isStringVal v = false) :
    analyzeRoute parseUrl load resolve v ax =
      RouteResult.err 400 "Missing required field"
        "URL is required in request body" ∨
    analyzeRoute parseUrl load resolve v ax =
      RouteResult.err 400 "Invalid input type" "URL must be a string" := by
  rcases h with h | h
  · exact Or.inl (by simp [analyzeRoute, validateUrl, h])
  · by_cases ht : truthy v = false
    · exact Or.inl (by simp [analyzeRoute, validateUrl, ht])
    · refine Or.inr ?_
      simp only [Bool.not_eq_false] at ht
      cases v <;> simp_all [analyzeRoute, validateUrl, truthy, isStringVal]

theorem c2_invalid_request_amended_witness :
    analyzeRoute (fun _ => none) (fun _ => Doc.mk [] [] 0 [] [])
        (fun _ _ => none) JsValue.object
        (AxiosResult.netError "ENOTFOUND" "getaddrinfo ENOTFOUND nohost") =
      RouteResult.err 400 "Missing required field"
        "URL is required in request body" ∨
    analyzeRoute (fun _ => none) (fun _ => Doc.mk [] [] 0 [] [])
        (fun _ _ => none) JsValue.object
        (AxiosResult.netError "ENOTFOUND" "getaddrinfo ENOTFOUND nohost") =
      RouteResult.err 400 "Invalid input type" "URL must be a string" :=
  c2_invalid_request_amended (fun _ => none) (fun _ => Doc.mk [] [] 0 [] [])
    (fun _ _ => none) JsValue.object
    (AxiosResult.netError "ENOTFOUND" "getaddrinfo ENOTFOUND nohost")
    (Or.inr rfl)

/-- The meta-description rule as the specification words it (claim C3):
the `content` attribute of the first `<meta>` whose `name` attribute
equals "description" under case-insensitive comparison, absent when no
such element exists. -/
def metaDescriptionSpec (d : Doc) : Option String :=
  ((d.metas.filter
      (fun m => (m.name.getD "").data.map Char.toLower =
        "description".data)).head?).bind
    (fun m => m.content)

/-- A nullable `content` value passed through JS truthiness: kept only
when it is a nonempty string. -/
def nonemptyContent : Option String → Option String
  | some c => if c = "" then none else some c
  | none => none

/-- The meta-description rule the code implements: the `content` of the
first `<meta name="description">` (exact case) when it is a nonempty
string, else the nonempty `content` of the first
`<meta name="Description">`, else absent. -/
def metaDescriptionCased (d : Doc) : Option String :=
  match firstMetaContent d.metas "description" with
  | some c =>
    if c = "" then nonemptyContent (firstMetaContent d.metas "Description")
    else some c
  | none => nonemptyContent (firstMetaContent d.metas "Description")

/-- The JS `a || b || null` chain, rephrased by cases on the first
operand. -/
theorem jsStrOr_cased (a b : Option String) :
    jsStrOr a (jsStrOr b none) =
      match a with
      | some c => if c = "" then nonemptyContent b else some c
      | none => nonemptyContent b := by
  rcases a with _ | c
  · rcases b with _ | c2
    · rfl
    · by_cases h : c2 = "" <;> simp [jsStrOr, nonemptyContent, h]
  · by_cases h : c = ""
    · rcases b with _ | c2
      · simp [jsStrOr, nonemptyContent, h]
      · by_cases h2 : c2 = "" <;> simp [jsStrOr, nonemptyContent, h, h2]
    · simp [jsStrOr, h]

/-- C3, counterexample: on a document whose only meta tag is
`<meta name="DESCRIPTION" content="x">`, the extractor yields no
`metaDescription`, while the claim's case-insensitive rule yields
`"x"`. -/
theorem c3_meta_description_counterexample :
    (parseSEOData (fun _ _ => none)
        (Doc.mk [] [MetaTag.mk (some "DESCRIPTION") (some "x")] 0 [] [])
        (Url.mk "https:" "example.com")).metaDescription = none ∧
    metaDescriptionSpec
        (Doc.mk [] [MetaTag.mk (some "DESCRIPTION") (some "x")] 0 [] []) =
      some "x" ∧
    (none : Option String) ≠ some "x" := by
  refine ⟨rfl, ?_, by decide⟩
  decide

/-- C3, amended: `metaDescription` equals the `content` of the first
`<meta>` whose `name` is exactly "description" when that content is a
nonempty string; otherwise the nonempty `content` of the first `<meta>`
whose `name` is exactly "Description"; otherwise it is absent.  Only
these two spellings match — the comparison is not case-insensitive — and
an empty `content` falls through. -/
theorem c3_meta_description_amended (resolve : String → Url → Option Url)
    (d : Doc) (u : Url) :
    (parseSEOData resolve d u).metaDescription = metaDescriptionCased d :=
  jsStrOr_cased (firstMetaContent d.metas "description")
    (firstMetaContent d.metas "Description")

/-- C1: when the target answers with a non-2xx status, the pipeline does
NOT return the claimed classification.  `fetchHTML` rethrows the axios
HTTP error as a plain `Error` carrying no `response`, so `handleError`'s
`error.response` branches never fire and control reaches the malformed
line that evaluates `err.response` with `err` undefined: the handler
throws a `ReferenceError` and the route crashes without responding, for a
5xx (503) and a 4xx (404) target alike.  The final conjunct shows the
dead branch would have produced the claimed 502 mapping had the original
axios error (with `response.status` set) reached `handleError`. -/
theorem c1_target_http_error_uncaught :
    fetchHTML (AxiosResult.httpError 503) =
      .error (plainErr "Server error: Server returned 503 status code") ∧
    handleError (plainErr "Server error: Server returned 503 status code") =
      .error "ReferenceError: err is not defined" ∧
    analyzeRoute (fun _ => some (Url.mk "https:" "example.com"))
        (fun _ => Doc.mk [] [] 0 [] []) (fun _ _ => none)
        (JsValue.str "https://example.com") (AxiosResult.httpError 503) =
      RouteResult.crash "ReferenceError: err is not defined" ∧
    analyzeRoute (fun _ => some (Url.mk "https:" "example.com"))
        (fun _ => Doc.mk [] [] 0 [] []) (fun _ _ => none)
        (JsValue.str "https://example.com") (AxiosResult.httpError 404) =
      RouteResult.crash "ReferenceError: err is not defined" ∧
    handleError
        (JsError.mk "Request failed with status code 503" none (some 503)) =
      .ok (ErrResponse.mk 502 "Bad Gateway"
        "Target server returned error: 503") := by
  refine ⟨rfl, rfl, rfl, rfl, rfl⟩

/-- C7: every successful analysis response satisfies
`checks = passedChecks ++ issues`, both orders preserved. -/
theorem c7_checks_concat (parseUrl : String → Option Url)
    (load : String → Doc) (resolve : String → Url → Option Url)
    (v : JsValue) (ax : AxiosResult) (resp : AnalysisResponse)
    (h : analyzeRoute parseUrl load resolve v ax = .ok resp) :
    resp.checks = resp.passedChecks ++ resp.issues := by
  unfold analyzeRoute at h
  split at h
  · cases h
  · split at h
    · split at h
      · cases h
      · cases h
    · split at h
      · cases h
        rfl
      · cases h

theorem c7_checks_concat_witness :
    (AnalysisResponse.mk "https://example.com" 40
        ["All images have alt text", "Page uses HTTPS",
          "Missing page title tag", "Missing meta description",
          "No H1 tags found on the page"]
        ["Missing page title tag", "Missing meta description",
          "No H1 tags found on the page"]
        ["All images have alt text", "Page uses HTTPS"]).checks =
      ["All images have alt text", "Page uses HTTPS"] ++
        ["Missing page title tag", "Missing meta description",
          "No H1 tags found on the page"] :=
  c7_checks_concat (fun _ => some (Url.mk "https:" "example.com"))
    (fun _ => Doc.mk [] [] 0 [] []) (fun _ _ => none)
    (JsValue.str "https://example.com")
    (AxiosResult.response 200 (some "text/html") (JsValue.str "<p>hi</p>"))
    _ (by decide)

/-- C8: a fetched 2xx response of an accepted content type whose string
body is empty or whitespace-only is classified to HTTP 422 with label
"Unprocessable Content" and message "The page returned empty or no HTML
content". -/
theorem c8_empty_body_unprocessable (parseUrl : String → Option Url)
    (load : String → Doc) (resolve : String → Url → Option Url)
    (v : JsValue) (u : String) (hv : validateUrl parseUrl v = .ok u)
    (st : Nat) (ct : Option String) (s : String)
    (hct : jsIncludes (ct.getD "") "text/html" = true ∨
      jsIncludes (ct.getD "") "text/plain" = true)
    (hs : jsTrim s = "") :
    analyzeRoute parseUrl load resolve v
        (AxiosResult.response st ct (JsValue.str s)) =
      RouteResult.err 422 "Unprocessable Content"
        "The page returned empty or no HTML content" := by
  have hct' : (jsIncludes (ct.getD "") "text/html" ||
      jsIncludes (ct.getD "") "text/plain") = true := by
    rcases hct with h | h <;> simp [h]
  have hfetch : fetchHTML (AxiosResult.response st ct (JsValue.str s)) =
      .error (plainErr
        "Failed to fetch URL: Empty HTML: Page returned no content") := by
    simp [fetchHTML, fetchTry, hct', fetchCatch, plainErr, strOf, hs]
  have hh : handleError (plainErr
      "Failed to fetch URL: Empty HTML: Page returned no content") =
      .ok (ErrResponse.mk 422 "Unprocessable Content"
        "The page returned empty or no HTML content") := rfl
  simp [analyzeRoute, hv, hfetch, hh]

theorem c8_empty_body_unprocessable_witness :
    analyzeRoute (fun _ => some (Url.mk "https:" "example.com"))
        (fun _ => Doc.mk [] [] 0 [] []) (fun _ _ => none)
        (JsValue.str "https://example.com")
        (AxiosResult.response 200 (some "text/html") (JsValue.str "   ")) =
      RouteResult.err 422 "Unprocessable Content"
        "The page returned empty or no HTML content" :=
  c8_empty_body_unprocessable (fun _ => some (Url.mk "https:" "example.com"))
    (fun _ => Doc.mk [] [] 0 [] []) (fun _ _ => none)
    (JsValue.str "https://example.com") "https://example.com" (by decide)
    200 (some "text/html") "   " (Or.inl (by decide)) (by decide)
